import Mathlib

/-!
Verification development for the Clear Football Photo Booth API
(`app.py`, `passenger_wsgi.py`).

The Python sources are shallowly embedded: PIL images become records with a
width, a height, a channel mode and a pixel function; the Flask request
handlers become pure functions over an explicit store (uploads bucket,
outputs bucket, operator log); the fallible external capabilities
(rembg segmentation, filesystem writes, per-file remove) become explicit
`Except`/`Option` parameters.  Floating point arithmetic in the source
(aspect-ratio comparisons, `int(...)` truncations) is modelled exactly over
the rationals, realised with natural-number arithmetic.  Resampling kernel
content (Lanczos) is abstracted: resized images keep an executable
nearest-neighbour pixel function, but every theorem below depends only on
sizes, modes, placement and pixel content that resampling does not touch.
-/

namespace PhotoBooth

/-- An 8-bit pixel; for RGB-mode images the alpha component is semantically 255. -/
structure Pixel where
  r : Nat
  g : Nat
  b : Nat
  a : Nat
deriving DecidableEq

/-- Channel layout of a PIL image as used by `app.py` (only RGB and RGBA occur). -/
inductive ImageMode where
  | RGB
  | RGBA
deriving DecidableEq

/-- Model of an in-memory PIL image: dimensions, channel mode and pixel content. -/
structure PILImage where
  width : Nat
  height : Nat
  mode : ImageMode
  pix : Nat → Nat → Pixel

/-- Models `Image.new(mode, (w, h), color)`. -/
def PILImage.new (m : ImageMode) (w h : Nat) (color : Pixel) : PILImage :=
  ⟨w, h, m, fun _ _ => color⟩

/-- Models `img.size`: the `(width, height)` pair. -/
def PILImage.size (img : PILImage) : Nat × Nat :=
  (img.width, img.height)

/-- Models `img.copy()`: an independent image with identical content. -/
def PILImage.copy (img : PILImage) : PILImage := img

/-- Models `img.convert(mode)`: converting an RGB image to RGBA materialises an
opaque alpha channel, converting to RGB discards alpha (semantically 255). -/
def PILImage.convert (img : PILImage) (m : ImageMode) : PILImage :=
  { img with
    mode := m,
    pix := fun x y =>
      if m = ImageMode.RGB ∨ img.mode = ImageMode.RGB then
        { img.pix x y with a := 255 }
      else img.pix x y }

/-- The raster produced by a succeeding `img.resize((w, h), ...)` call: the
result has exactly the requested size; the resampling kernel is abstracted by
an executable nearest-neighbour lookup (no theorem below depends on resampled
pixel values).  Pillow's argument check — `resize` raises
ValueError("height and width must be > 0") when a target dimension is zero —
is modelled by `PILImage.resizeOrError`; this raw function is only ever the
meaning of calls whose target size is positive. -/
def PILImage.resize (img : PILImage) (w h : Nat) : PILImage :=
  { width := w, height := h, mode := img.mode,
    pix := fun x y => img.pix (x * img.width / w) (y * img.height / h) }

/-- Models the Pillow `Image.resize` API including its argument check: a zero
target width or height raises ValueError("height and width must be > 0"),
otherwise the call returns the resized raster. -/
def PILImage.resizeOrError (img : PILImage) (w h : Nat) : Except String PILImage :=
  if w = 0 ∨ h = 0 then Except.error "height and width must be > 0"
  else Except.ok (img.resize w h)

/-- Models `img.crop((left, upper, right, lower))`. -/
def PILImage.crop (img : PILImage) (box : Nat × Nat × Nat × Nat) : PILImage :=
  { width := box.2.2.1 - box.1, height := box.2.2.2 - box.2.1, mode := img.mode,
    pix := fun x y => img.pix (x + box.1) (y + box.2.1) }

/-- Linear interpolation of two pixels by a mask value `a` in `0..255`,
modelling how PIL blends during a masked paste. -/
def blendPixel (dst src : Pixel) (a : Nat) : Pixel :=
  if a = 255 then src
  else if a = 0 then dst
  else
    ⟨(dst.r * (255 - a) + src.r * a) / 255,
     (dst.g * (255 - a) + src.g * a) / 255,
     (dst.b * (255 - a) + src.b * a) / 255,
     (dst.a * (255 - a) + src.a * a) / 255⟩

/-- Models `dst.paste(src, (ox, oy), mask)`: an in-place paste, so the result
keeps `dst`'s size and mode; inside the pasted region pixels are blended by
the mask's alpha value, outside they are untouched.  Passing an RGBA image as
its own mask (as `app.py` does) uses its alpha band. -/
def PILImage.paste (dst src : PILImage) (ox oy : Nat) (mask : PILImage) : PILImage :=
  { dst with
    pix := fun x y =>
      if ox ≤ x ∧ x < ox + src.width ∧ oy ≤ y ∧ y < oy + src.height ∧
         x < dst.width ∧ y < dst.height then
        blendPixel (dst.pix x y) (src.pix (x - ox) (y - oy)) ((mask.pix (x - ox) (y - oy)).a)
      else dst.pix x y }

/-- The columns of `img` holding at least one pixel with nonzero alpha, in
ascending order. -/
def PILImage.alphaCols (img : PILImage) : List Nat :=
  (List.range img.width).filter fun x =>
    (List.range img.height).any fun y => (img.pix x y).a != 0

/-- The rows of `img` holding at least one pixel with nonzero alpha, in
ascending order. -/
def PILImage.alphaRows (img : PILImage) : List Nat :=
  (List.range img.height).filter fun y =>
    (List.range img.width).any fun x => (img.pix x y).a != 0

/-- Models `img.getbbox()` on an RGBA image (Pillow trims by the alpha band,
its `alpha_only=True` default): the tight bounding box
`(left, upper, right, lower)` of the non-fully-transparent region, or `none`
when every pixel is fully transparent.  The occupied columns and rows are
listed in ascending order, so the head is the minimum and the last element
the maximum coordinate. -/
def PILImage.getbbox (img : PILImage) : Option (Nat × Nat × Nat × Nat) :=
  match img.alphaCols, img.alphaRows with
  | x0 :: xtl, y0 :: ytl =>
    some (x0, y0, xtl.getLastD x0 + 1, ytl.getLastD y0 + 1)
  | _, _ => none

/-- Models the `round_aspect` helper inside `Image.thumbnail` in the branch
that recomputes the width: the candidates are the floor and the ceiling of
`y * w / h`, the one whose value `n` minimises the true gap between `w / h`
and `n / y` is kept (the floor on ties, as Python's `min` keeps the first
argument), and the result is clamped to at least 1.  The gap comparison
`abs (w / h - n / y)` is realised exactly by comparing `Nat.dist (n * h) (y * w)`,
a cross-multiplication by the common positive factor `y * h`. -/
def roundAspectW (y w h : Nat) : Nat :=
  let f := y * w / h
  let c := (y * w + h - 1) / h
  let n := if Nat.dist (f * h) (y * w) ≤ Nat.dist (c * h) (y * w) then f else c
  max n 1

/-- Models the `round_aspect` helper inside `Image.thumbnail` in the branch
that recomputes the height: the candidates are the floor and the ceiling of
`x * h / w`; the key is `abs (w / h - x / n)` (and 0 when `n = 0`), realised
exactly by the cross-multiplied comparison below; the result is clamped to at
least 1. -/
def roundAspectH (x w h : Nat) : Nat :=
  let f := x * h / w
  let c := (x * h + w - 1) / w
  let n :=
    if f = 0 then f
    else if Nat.dist (w * f) (x * h) * c ≤ Nat.dist (w * c) (x * h) * f then f else c
  max n 1

/-- Models `img.thumbnail((sx, sy), LANCZOS)`: no-op when the image already
fits in the requested box, otherwise the larger relative dimension is pinned
to the box and the other is recomputed from the aspect ratio; no resize is
performed when the computed size equals the current size.  The float
comparison `sx / sy >= width / height` is realised exactly as
`sx * height >= sy * width`. -/
def PILImage.thumbnail (img : PILImage) (sx sy : Nat) : PILImage :=
  if sx ≥ img.width ∧ sy ≥ img.height then img
  else
    let nsz :=
      if sx * img.height ≥ sy * img.width then
        (roundAspectW sy img.width img.height, sy)
      else
        (sx, roundAspectH sx img.width img.height)
    if nsz = (img.width, img.height) then img else img.resize nsz.1 nsz.2

/-- The text after the last occurrence of `sep`, or the whole string when
`sep` does not occur; the common core of Python's `rsplit(sep, 1)[-1]` and
`os.path.basename`. -/
def afterLast (sep : Char) (s : String) : String :=
  String.mk ((s.toList.reverse.takeWhile fun c => c ≠ sep).reverse)

/-- Models `allowed_file` (app.py line 64): the name must contain a dot and
the text after the last dot, lowercased, must be png, jpg or jpeg. -/
def allowed_file (filename : String) : Bool :=
  filename.toList.contains '.' &&
    ["png", "jpg", "jpeg"].contains
      (String.mk ((afterLast '.' filename).toList.map Char.toLower))

/-- Models werkzeug's `secure_filename` sanitizer abstractly: path separators
and other unsafe characters are removed, ASCII alphanumerics plus dot, dash
and underscore are kept.  No claim depends on its fine structure. -/
def secure_filename (s : String) : String :=
  String.mk (s.toList.filter fun c =>
    c.isAlphanum || c = '.' || c = '-' || c = '_')

/-- Models the pre-processing step of `remove_background` (app.py lines 76-79):
an image whose larger dimension exceeds 2000 px is shrunk in place with
`img.thumbnail((2000, 2000), LANCZOS)` before segmentation; smaller images are
passed through untouched. -/
def remove_background_resize (img : PILImage) : PILImage :=
  if max img.width img.height > 2000 then img.thumbnail 2000 2000 else img

/-- Models `remove_background` (app.py lines 67-96): downscale oversized
input, hand the bytes to the opaque, fallible rembg capability `segment`,
and convert a successful result to RGBA.  The PNG byte round-trip around the
capability is content-preserving and is absorbed into `segment`. -/
def remove_background (segment : PILImage → Except String PILImage)
    (img : PILImage) : Except String PILImage :=
  (segment (remove_background_resize img)).map fun out => out.convert ImageMode.RGBA

/-- Models app.py lines 109-111: crop the cutout to `getbbox()` when the
bounding box exists (a tuple is always truthy), keep it unchanged when
`getbbox()` returns `None`. -/
def cropToBBox (person : PILImage) : PILImage :=
  match person.getbbox with
  | some box => person.crop box
  | none => person

/-- The geometry computed by `fit_person_to_frame` (app.py lines 113-134) from
the cropped cutout size. -/
structure FitGeom where
  new_width : Nat
  new_height : Nat
  x_offset : Nat
  y_offset : Nat

/-- Models app.py lines 113-134 over exact rationals: the float comparison
`pw / ph > 1024 / 1536` becomes `pw * 1536 > 1024 * ph`; the truncations
`int(1024 * 0.85)`, `int(1536 * 0.85)`, `int(new_width / person_ratio)` and
`int(new_height * person_ratio)` become the Nat floor divisions below. -/
def fitGeometry (pw ph : Nat) : FitGeom :=
  if pw * 1536 > 1024 * ph then
    let nw := 1024 * 85 / 100
    let nh := nw * ph / pw
    ⟨nw, nh, (1024 - nw) / 2, 1536 - nh⟩
  else
    let nh := 1536 * 85 / 100
    let nw := nh * pw / ph
    ⟨nw, nh, (1024 - nw) / 2, 1536 - nh⟩

/-- Models app.py lines 103-105: resample the frame to 1024x1536 unless it
already has that size, then take an RGBA working copy. -/
def prepFrame (frame : PILImage) : PILImage :=
  ((if frame.size = (1024, 1536) then frame else frame.resize 1024 1536).copy).convert
    ImageMode.RGBA

/-- The value of `fit_person_to_frame` (app.py lines 98-137) on the inputs
where the person resize at line 130 succeeds: prepare the frame, crop the
cutout to its alpha bounding box, scale it by the 0.85 aesthetic factor
preserving aspect ratio, and paste it horizontally centered and bottom-aligned
using its own alpha as mask.  The failure path of that resize —
`int` truncation can drive `new_width` or `new_height` to zero for extreme
aspect ratios, and Pillow then raises — is carried by
`fit_person_to_frame_checked`, which returns `Except.ok` of this value
exactly when the resize succeeds. -/
def fit_person_to_frame (person frame : PILImage) : PILImage :=
  let result := prepFrame frame
  let person1 := cropToBBox person
  let g := fitGeometry person1.width person1.height
  let person_resized := person1.resize g.new_width g.new_height
  result.paste person_resized g.x_offset g.y_offset person_resized

/-- Models `fit_person_to_frame` (app.py lines 98-137) in full, including the
ValueError Pillow's `resize` raises at line 130 when the computed size
truncates to zero in either dimension (a cropped cutout more than 870 times
wider than tall, or more than 1305 times taller than wide); the exception
propagates out of the function to the caller's except handler. -/
def fit_person_to_frame_checked (person frame : PILImage) :
    Except String PILImage :=
  let result := prepFrame frame
  let person1 := cropToBBox person
  let g := fitGeometry person1.width person1.height
  (person1.resizeOrError g.new_width g.new_height).map fun person_resized =>
    result.paste person_resized g.x_offset g.y_offset person_resized

/-- Models `generate_qr_code` (app.py lines 139-145): the QR encoding itself
is an opaque external capability; its raster is an unspecified deterministic
function of the URL, stood in for by an executable checkerboard.  The source
then resizes to 150x150 and converts to RGBA, which is kept faithfully. -/
def generate_qr_code (url : String) : PILImage :=
  ((PILImage.mk 250 250 ImageMode.RGB fun x y =>
      if (x + y + url.length) % 2 = 0 then ⟨0, 0, 0, 255⟩ else ⟨255, 255, 255, 255⟩).resize
    150 150).convert ImageMode.RGBA

/-- Models app.py lines 199-200: flatten onto an opaque white RGB canvas of
the same size, pasting with the image's own alpha band as mask. -/
def flattenToRGB (img : PILImage) : PILImage :=
  (PILImage.new ImageMode.RGB img.width img.height ⟨255, 255, 255, 255⟩).paste img 0 0 img

/-- Models app.py lines 174-180: resolve `frames/frame_{bg_choice}.png` by
existence, falling back once to `frame_1.png`; `none` means the 404 path. -/
def resolveFrame (frames : List (String × PILImage)) (bgChoice : String) :
    Option PILImage :=
  match frames.lookup ("frame_" ++ bgChoice ++ ".png") with
  | some img => some img
  | none => frames.lookup "frame_1.png"

/-- The two-bucket storage state of the service plus the operator-facing
debug log (`app_debug.log`). -/
structure Store where
  uploads : List (String × PILImage)
  outputs : List (String × PILImage)
  log : List String

/-- The parts of a `/process` request the handler reads: presence of the
`person_image` part, its client filename and decoded content, the
`image_set_background` form value (already defaulted to "1" by `request.form.get`),
and `request.host_url` already stripped of its trailing slash. -/
structure Request where
  hasFile : Bool
  filename : String
  content : PILImage
  bgChoice : String
  hostUrl : String

/-- The external world of one `/process` request: the frames folder content,
the opaque fallible segmentation capability, the outcomes of the two
filesystem writes, and the `uuid4` prefix drawn for the request. -/
structure Env where
  frames : List (String × PILImage)
  segment : PILImage → Except String PILImage
  saveUpload : Except String Unit
  saveOutput : Except String Unit
  uniqueId : String

/-- Responses produced by the embedded handlers. -/
inductive Resp where
  | processOk (output_file : String) (download_url : String)
  | jsonError (status : Nat) (error : String)
  | serverError (error : String) (details : String)
  | deleteOk (deleted_count : Nat) (errors : List String)
  | zipFile (entries : List (String × PILImage))

/-- True exactly for the 200 success response of `/process`. -/
def Resp.isOk : Resp → Bool
  | .processOk _ _ => true
  | _ => false

/-- Models `traceback.format_exc()`: the full stack trace text, ending in the
exception message. -/
def format_exc (msg : String) : String :=
  "Traceback (most recent call last):\n" ++ msg

/-- Models the `except` clause of `process_image` (app.py lines 211-214):
log the full traceback, answer 500 with the exception text and a fixed hint. -/
def fail500 (msg : String) (st : Store) : Resp × Store :=
  (Resp.serverError msg "Check app_debug.log on server",
   { st with log := st.log ++ ["Processing Error:\n" ++ format_exc msg] })

/-- Models app.py lines 184-209: composite the cutout onto the frame — a
ValueError raised inside `fit_person_to_frame` propagates to the route's
except handler — then stamp the QR code 20 px from the bottom-right corner,
flatten to opaque RGB and persist to the outputs bucket. -/
def composite_and_save (env : Env) (req : Request) (person frame : PILImage)
    (st : Store) : Resp × Store :=
  match fit_person_to_frame_checked person frame with
  | .error m => fail500 m st
  | .ok final =>
    let output_filename := env.uniqueId ++ "_output.png"
    let download_url := req.hostUrl ++ "/download/" ++ output_filename
    let qr := generate_qr_code download_url
    let final2 := final.paste qr (final.width - qr.width - 20) (final.height - qr.height - 20) qr
    let final_rgb := flattenToRGB final2
    match env.saveOutput with
    | .error m => fail500 m st
    | .ok _ =>
      (Resp.processOk output_filename download_url,
       { st with outputs := st.outputs ++ [(output_filename, final_rgb)] })

/-- Models app.py lines 170-209, the pipeline stages that run after the
upload has been persisted: background removal, frame resolution (404 when
even the fallback frame is absent), composition and output persistence. -/
def after_upload (env : Env) (req : Request) (st : Store) : Resp × Store :=
  match remove_background env.segment req.content with
  | .error m => fail500 m st
  | .ok person =>
    match resolveFrame env.frames req.bgChoice with
    | none => (Resp.jsonError 404 "Background frame not found on server", st)
    | some frame => composite_and_save env req person frame st

/-- Models `process_image` (app.py lines 147-221): request validation, upload
persistence under a unique sanitized name, then the downstream pipeline; any
stage exception is mapped to `fail500`.  The commented-out cleanup in the
`finally` block (lines 216-221) deletes nothing, so the uploaded file is
never removed. -/
def process_image (env : Env) (req : Request) (st : Store) : Resp × Store :=
  if req.hasFile = false then (Resp.jsonError 400 "No image file provided", st)
  else if req.filename = "" then (Resp.jsonError 400 "No selected file", st)
  else if allowed_file req.filename = false then
    (Resp.jsonError 400 "Invalid file type. Use JPG or PNG.", st)
  else
    match env.saveUpload with
    | .error m => fail500 m st
    | .ok _ =>
      after_upload env req
        { st with
          uploads := st.uploads ++
            [(secure_filename (env.uniqueId ++ "_" ++ req.filename), req.content)] }

/-- Renders the JSON body a client receives for each response shape
(the zip response streams bytes, not JSON). -/
def respBody : Resp → String
  | .processOk f u =>
    "\x7b\"success\": true, \"output_file\": \"" ++ f ++ "\", \"download_url\": \"" ++ u ++ "\"\x7d"
  | .jsonError _ e => "\x7b\"error\": \"" ++ e ++ "\"\x7d"
  | .serverError e d => "\x7b\"error\": \"" ++ e ++ "\", \"details\": \"" ++ d ++ "\"\x7d"
  | .deleteOk n errs =>
    "\x7b\"success\": true, \"deleted_count\": " ++ toString n ++ ", \"errors\": " ++
      toString errs ++ "\x7d"
  | .zipFile _ => ""

/-- Executable substring test: `pat` occurs contiguously in `s`. -/
def strContains (s pat : String) : Bool :=
  (List.range (s.length + 1)).any fun i =>
    (s.toList.drop i).take pat.length == pat.toList

/-- Models `passenger_wsgi.application`: when importing `app` fails, the 500
body sent to the browser is the cPanel help message followed by the full
traceback (passenger_wsgi.py lines 17-40). -/
def passenger_error_body (tb : String) : String :=
  "PYTHON DEPLOYMENT ERROR DETECTED\n" ++
  "==============================\n\n" ++
  "If you see a ModuleNotFoundError, go to Setup Python App in cPanel " ++
  "and click RUN PIP INSTALL for your requirements.txt.\n\n" ++
  "Detailed Traceback:\n" ++
  "-------------------\n" ++ tb

/-- Models `os.path.basename` on POSIX: the text after the last slash. -/
def basename (s : String) : String :=
  afterLast '/' s

/-- Per-batch accumulator of `delete_images` (app.py lines 320-333): folder
content so far, `deleted_count` and the `errors` list. -/
structure DeleteAcc where
  folder : List (String × PILImage)
  deleted_count : Nat
  errors : List String

/-- Models one iteration of the delete loop (app.py lines 323-333): the
filename is re-sanitized with `os.path.basename`; a missing file is skipped
silently; an existing file is removed, except that a raising `os.remove`
(modelled by the `removeErr` oracle) appends a per-file error instead. -/
def deleteStep (removeErr : String → Option String) (acc : DeleteAcc)
    (fn0 : String) : DeleteAcc :=
  let fn := basename fn0
  if (acc.folder.lookup fn).isSome then
    match removeErr fn with
    | some e =>
      { acc with errors := acc.errors ++ ["Failed to delete " ++ fn ++ ": " ++ e] }
    | none =>
      { acc with
        folder := acc.folder.eraseP fun p => p.1 == fn,
        deleted_count := acc.deleted_count + 1 }
  else acc

/-- Models the whole delete loop of `delete_images` over the filename batch. -/
def deleteLoop (removeErr : String → Option String) (acc : DeleteAcc)
    (fns : List String) : DeleteAcc :=
  fns.foldl (deleteStep removeErr) acc

/-- Models the `/api/admin/delete-images` route (app.py lines 306-339):
session check, request validation, bucket selection, the per-file delete
loop, and the `deleted_count`/`errors` response. -/
def delete_images (loggedIn : Bool) (removeErr : String → Option String)
    (st : Store) (filenames : List String) (category : Option String) :
    Resp × Store :=
  if loggedIn = false then (Resp.jsonError 401 "Unauthorized", st)
  else if filenames = [] ∨ ¬(category = some "outputs" ∨ category = some "uploads") then
    (Resp.jsonError 400 "Invalid request", st)
  else
    let folder := if category = some "outputs" then st.outputs else st.uploads
    let acc := deleteLoop removeErr ⟨folder, 0, []⟩ filenames
    let st1 :=
      if category = some "outputs" then { st with outputs := acc.folder }
      else { st with uploads := acc.folder }
    (Resp.deleteOk acc.deleted_count acc.errors, st1)

/-- Models the `/api/admin/bulk-download` route (app.py lines 341-373):
session check, request validation, then an in-memory zip holding exactly the
re-sanitized filenames that exist in the selected bucket; the store is never
modified. -/
def bulk_download (loggedIn : Bool) (st : Store) (filenames : List String)
    (category : Option String) : Resp × Store :=
  if loggedIn = false then (Resp.jsonError 401 "Unauthorized", st)
  else if filenames = [] ∨ ¬(category = some "outputs" ∨ category = some "uploads") then
    (Resp.jsonError 400 "Invalid request", st)
  else
    let folder := if category = some "outputs" then st.outputs else st.uploads
    let entries := filenames.filterMap fun fn0 =>
      (folder.lookup (basename fn0)).map fun img => (basename fn0, img)
    (Resp.zipFile entries, st)

/-! Concrete fixtures used by witnesses and counterexamples. -/

/-- A 1x1 fully transparent RGBA cutout. -/
def clearCutout : PILImage := ⟨1, 1, ImageMode.RGBA, fun _ _ => ⟨0, 0, 0, 0⟩⟩

/-- An all-black frame asset already at the canonical 1024x1536 size. -/
def blackFrame : PILImage := ⟨1024, 1536, ImageMode.RGB, fun _ _ => ⟨0, 0, 0, 255⟩⟩

/-- An all-white frame asset already at the canonical 1024x1536 size. -/
def whiteFrame : PILImage := ⟨1024, 1536, ImageMode.RGB, fun _ _ => ⟨255, 255, 255, 255⟩⟩

/-- Empty storage state. -/
def stEmpty : Store := ⟨[], [], []⟩

/-- A well-formed `/process` request selecting the given frame. -/
def baseReq (choice : String) : Request :=
  ⟨true, "me.png", clearCutout, choice, "http://x"⟩

/-- A deployment whose frames folder holds `frame_1.png` and also a
`frame_7.png`; every stage succeeds and segmentation is the identity. -/
def envFrames17 : Env :=
  ⟨[("frame_1.png", blackFrame), ("frame_7.png", whiteFrame)],
   fun i => Except.ok i, Except.ok (), Except.ok (), "deadbeef"⟩

/-- A deployment where writing the output file raises an `OSError` whose text
carries the target path, as Python `OSError` messages do. -/
def envSaveFail : Env :=
  ⟨[("frame_1.png", blackFrame)], fun i => Except.ok i, Except.ok (),
   Except.error "Errno 13 Permission denied: /home/booth/outputs/deadbeef_output.png",
   "deadbeef"⟩

/-- A deployment where the segmentation capability fails. -/
def envSegFail : Env :=
  ⟨[("frame_1.png", blackFrame)], fun _ => Except.error "rembg failed",
   Except.ok (), Except.ok (), "deadbeef"⟩

/-- A pre-existing RGB output file content. -/
def rgbKeep : PILImage := ⟨1, 1, ImageMode.RGB, fun _ _ => ⟨1, 2, 3, 255⟩⟩

/-- A store already holding one output file. -/
def stOld : Store := ⟨[], [("old.png", rgbKeep)], []⟩

/-- A 4000x1000 input image, larger than the 2000 px working bound. -/
def img4000 : PILImage := ⟨4000, 1000, ImageMode.RGB, fun _ _ => ⟨0, 0, 0, 255⟩⟩

/-- A fully opaque 1000x1 cutout: after the bbox crop its scaled height is
`int(870 / 1000.0) = 0`, the size at which Pillow's `resize` raises. -/
def wideStrip : PILImage := ⟨1000, 1, ImageMode.RGBA, fun _ _ => ⟨0, 0, 0, 255⟩⟩

/-- A well-formed `/process` request uploading the extreme 1000x1 cutout. -/
def reqWide : Request := ⟨true, "me.png", wideStrip, "1", "http://x"⟩

/-- A one-file bucket whose single member is `bad.png`. -/
def accW : DeleteAcc := ⟨[("bad.png", rgbKeep)], 0, []⟩

/-- A remove oracle that raises exactly on `bad.png`. -/
def removeErrW : String → Option String :=
  fun n => if n = "bad.png" then some "Errno 5" else none

/-! Helper lemmas. -/

lemma prepFrame_spec (frame : PILImage) :
    (prepFrame frame).width = 1024 ∧ (prepFrame frame).height = 1536 ∧
    (prepFrame frame).mode = ImageMode.RGBA := by
  unfold prepFrame PILImage.convert PILImage.copy PILImage.resize PILImage.size
  split
  next h =>
    injection h with h1 h2
    exact ⟨h1, h2, rfl⟩
  next => exact ⟨rfl, rfl, rfl⟩

lemma alphaCols_eq_nil (img : PILImage)
    (h : ∀ x, x < img.width → ∀ y, y < img.height → (img.pix x y).a = 0) :
    img.alphaCols = [] := by
  unfold PILImage.alphaCols
  rw [List.filter_eq_nil_iff]
  intro x hxm
  have hx := List.mem_range.mp hxm
  simp only [List.any_eq_true, List.mem_range, bne_iff_ne, ne_eq, not_exists,
    not_and, not_not]
  exact fun y hy => h x hx y hy

lemma alphaRows_eq_nil (img : PILImage)
    (h : ∀ x, x < img.width → ∀ y, y < img.height → (img.pix x y).a = 0) :
    img.alphaRows = [] := by
  unfold PILImage.alphaRows
  rw [List.filter_eq_nil_iff]
  intro y hym
  have hy := List.mem_range.mp hym
  simp only [List.any_eq_true, List.mem_range, bne_iff_ne, ne_eq, not_exists,
    not_and, not_not]
  exact fun x hx => h x hx y hy

lemma getbbox_eq_none (img : PILImage)
    (h : ∀ x, x < img.width → ∀ y, y < img.height → (img.pix x y).a = 0) :
    img.getbbox = none := by
  unfold PILImage.getbbox
  rw [alphaCols_eq_nil img h, alphaRows_eq_nil img h]

lemma fitGeometry_wide (pw ph : Nat) (h : pw * 1536 > 1024 * ph) :
    fitGeometry pw ph = ⟨870, 870 * ph / pw, 77, 1536 - 870 * ph / pw⟩ := by
  unfold fitGeometry
  rw [if_pos h]

lemma fitGeometry_tall (pw ph : Nat) (h : ¬ pw * 1536 > 1024 * ph) :
    fitGeometry pw ph =
      ⟨1305 * pw / ph, 1305, (1024 - 1305 * pw / ph) / 2, 231⟩ := by
  unfold fitGeometry
  rw [if_neg h]

/-! Claim theorems. -/

set_option maxRecDepth 10000 in
/-- Claim C2 counterexample: for the fully opaque 1000x1 cutout the wide
branch computes `new_width = 870`, `new_height = int(870 / 1000.0) = 0`, and
Pillow's `resize` raises ValueError("height and width must be > 0"), so the
composition raises instead of returning a 1024x1536 RGBA image, and the
request is answered with 500 — refuting the claim for "any size, any aspect
ratio". -/
theorem C2_counterexample :
    fit_person_to_frame_checked wideStrip blackFrame =
      Except.error "height and width must be > 0" ∧
    (process_image envFrames17 reqWide stEmpty).1 =
      Resp.serverError "height and width must be > 0"
        "Check app_debug.log on server" := by
  constructor
  · rfl
  · rfl

/-- Claim C2 as amended: whenever the scale step's integer truncation leaves
both target dimensions positive — which holds for every cropped cutout that
is at most 870 times wider than tall and at most 1305 times taller than wide —
the composition succeeds and returns an image of exactly the canonical
1024x1536 resolution in RGBA layout; on the remaining degenerate aspect
ratios Pillow's `resize` raises and no image is returned. -/
theorem C2_compose_size_rgba_amended (person frame : PILImage)
    (h1 : (fitGeometry (cropToBBox person).width
            (cropToBBox person).height).new_width ≠ 0)
    (h2 : (fitGeometry (cropToBBox person).width
            (cropToBBox person).height).new_height ≠ 0) :
    fit_person_to_frame_checked person frame =
      Except.ok (fit_person_to_frame person frame) ∧
    (fit_person_to_frame person frame).width = 1024 ∧
    (fit_person_to_frame person frame).height = 1536 ∧
    (fit_person_to_frame person frame).mode = ImageMode.RGBA ∧
    (∀ pw ph, 0 < pw → 0 < ph → pw ≤ 870 * ph → ph ≤ 1305 * pw →
      (fitGeometry pw ph).new_width ≠ 0 ∧ (fitGeometry pw ph).new_height ≠ 0) := by
  have hspec := prepFrame_spec frame
  refine ⟨?_, hspec.1, hspec.2.1, hspec.2.2, ?_⟩
  · simp only [fit_person_to_frame_checked, fit_person_to_frame,
      PILImage.resizeOrError]
    rw [if_neg (by tauto)]
    rfl
  · intro pw ph hpw hph hwide htall
    by_cases hgt : pw * 1536 > 1024 * ph
    · rw [fitGeometry_wide pw ph hgt]
      constructor
      · show (870 : Nat) ≠ 0
        norm_num
      · show 870 * ph / pw ≠ 0
        have hone : 1 ≤ 870 * ph / pw := (Nat.one_le_div_iff hpw).mpr hwide
        omega
    · rw [fitGeometry_tall pw ph hgt]
      constructor
      · show 1305 * pw / ph ≠ 0
        have hone : 1 ≤ 1305 * pw / ph := (Nat.one_le_div_iff hph).mpr htall
        omega
      · show (1305 : Nat) ≠ 0
        norm_num

/-- Witness for the amended C2 at a concrete 1x1 cutout and an off-size
frame: the resize succeeds and the composite is 1024x1536 RGBA. -/
theorem C2_compose_size_rgba_amended_witness :
    ((fitGeometry (cropToBBox clearCutout).width
        (cropToBBox clearCutout).height).new_width ≠ 0 ∧
     (fitGeometry (cropToBBox clearCutout).width
        (cropToBBox clearCutout).height).new_height ≠ 0) ∧
    (fit_person_to_frame_checked clearCutout rgbKeep =
        Except.ok (fit_person_to_frame clearCutout rgbKeep) ∧
      (fit_person_to_frame clearCutout rgbKeep).width = 1024 ∧
      (fit_person_to_frame clearCutout rgbKeep).height = 1536 ∧
      (fit_person_to_frame clearCutout rgbKeep).mode = ImageMode.RGBA ∧
      (∀ pw ph, 0 < pw → 0 < ph → pw ≤ 870 * ph → ph ≤ 1305 * pw →
        (fitGeometry pw ph).new_width ≠ 0 ∧ (fitGeometry pw ph).new_height ≠ 0)) :=
  ⟨⟨by decide, by decide⟩,
   C2_compose_size_rgba_amended clearCutout rgbKeep (by decide) (by decide)⟩

/-- Claim C3: the scaled subject is placed horizontally centered,
`x_offset = (1024 - new_width) / 2`, with the two side margins equal within
1 px, and bottom-aligned, `y_offset = 1536 - new_height`; and
`fit_person_to_frame` pastes exactly at these offsets. -/
theorem C3_placement (pw ph : Nat) (hw : 0 < pw) (hh : 0 < ph) :
    (fitGeometry pw ph).new_width ≤ 1024 ∧
    (fitGeometry pw ph).new_height ≤ 1536 ∧
    (fitGeometry pw ph).x_offset = (1024 - (fitGeometry pw ph).new_width) / 2 ∧
    (fitGeometry pw ph).y_offset = 1536 - (fitGeometry pw ph).new_height ∧
    (fitGeometry pw ph).x_offset ≤
      1024 - (fitGeometry pw ph).new_width - (fitGeometry pw ph).x_offset ∧
    1024 - (fitGeometry pw ph).new_width - (fitGeometry pw ph).x_offset -
      (fitGeometry pw ph).x_offset ≤ 1 ∧
    (∀ person frame : PILImage,
      fit_person_to_frame person frame =
        (prepFrame frame).paste
          ((cropToBBox person).resize
            (fitGeometry (cropToBBox person).width (cropToBBox person).height).new_width
            (fitGeometry (cropToBBox person).width (cropToBBox person).height).new_height)
          (fitGeometry (cropToBBox person).width (cropToBBox person).height).x_offset
          (fitGeometry (cropToBBox person).width (cropToBBox person).height).y_offset
          ((cropToBBox person).resize
            (fitGeometry (cropToBBox person).width (cropToBBox person).height).new_width
            (fitGeometry (cropToBBox person).width (cropToBBox person).height).new_height)) := by
  by_cases hgt : pw * 1536 > 1024 * ph
  · rw [fitGeometry_wide pw ph hgt]
    have hnh : 870 * ph / pw ≤ 1305 := by
      have h1 : 870 * ph ≤ 1305 * pw := by omega
      calc 870 * ph / pw ≤ 1305 * pw / pw := Nat.div_le_div_right h1
        _ = 1305 := Nat.mul_div_cancel 1305 hw
    refine ⟨?_, ?_, ?_, ?_, ?_, ?_, fun _ _ => rfl⟩
    · show (870 : Nat) ≤ 1024
      norm_num
    · show 870 * ph / pw ≤ 1536
      omega
    · show (77 : Nat) = (1024 - 870) / 2
      norm_num
    · show (1536 - 870 * ph / pw) = 1536 - 870 * ph / pw
      rfl
    · show (77 : Nat) ≤ 1024 - 870 - 77
      norm_num
    · show ((1024 : Nat) - 870 - 77 - 77) ≤ 1
      norm_num
  · rw [fitGeometry_tall pw ph hgt]
    have hnw : 1305 * pw / ph ≤ 870 := by
      have h1 : 1305 * pw ≤ 870 * ph := by omega
      calc 1305 * pw / ph ≤ 870 * ph / ph := Nat.div_le_div_right h1
        _ = 870 := Nat.mul_div_cancel 870 hh
    refine ⟨?_, ?_, ?_, ?_, ?_, ?_, fun _ _ => rfl⟩
    · show 1305 * pw / ph ≤ 1024
      omega
    · show (1305 : Nat) ≤ 1536
      norm_num
    · show (1024 - 1305 * pw / ph) / 2 = (1024 - 1305 * pw / ph) / 2
      rfl
    · show (231 : Nat) = 1536 - 1305
      norm_num
    · show (1024 - 1305 * pw / ph) / 2 ≤
        1024 - 1305 * pw / ph - (1024 - 1305 * pw / ph) / 2
      omega
    · show 1024 - 1305 * pw / ph - (1024 - 1305 * pw / ph) / 2 -
        (1024 - 1305 * pw / ph) / 2 ≤ 1
      omega

/-- Witness for C3 at a 1x1 cutout: new size 870x870, placed at (77, 666). -/
theorem C3_placement_witness :
    0 < 1 ∧
    ((fitGeometry 1 1).new_width ≤ 1024 ∧
     (fitGeometry 1 1).new_height ≤ 1536 ∧
     (fitGeometry 1 1).x_offset = (1024 - (fitGeometry 1 1).new_width) / 2 ∧
     (fitGeometry 1 1).y_offset = 1536 - (fitGeometry 1 1).new_height ∧
     (fitGeometry 1 1).x_offset ≤
       1024 - (fitGeometry 1 1).new_width - (fitGeometry 1 1).x_offset ∧
     1024 - (fitGeometry 1 1).new_width - (fitGeometry 1 1).x_offset -
       (fitGeometry 1 1).x_offset ≤ 1 ∧
     (∀ person frame : PILImage,
       fit_person_to_frame person frame =
         (prepFrame frame).paste
           ((cropToBBox person).resize
             (fitGeometry (cropToBBox person).width (cropToBBox person).height).new_width
             (fitGeometry (cropToBBox person).width (cropToBBox person).height).new_height)
           (fitGeometry (cropToBBox person).width (cropToBBox person).height).x_offset
           (fitGeometry (cropToBBox person).width (cropToBBox person).height).y_offset
           ((cropToBBox person).resize
             (fitGeometry (cropToBBox person).width (cropToBBox person).height).new_width
             (fitGeometry (cropToBBox person).width (cropToBBox person).height).new_height))) :=
  ⟨by decide, C3_placement 1 1 (by decide) (by decide)⟩

/-- Claim C6: a fully transparent cutout (every pixel has alpha 0) has no
bounding box, so the crop step is skipped and the cutout is used unchanged. -/
theorem C6_transparent_cutout_skip_crop (person : PILImage)
    (h : ∀ x, x < person.width → ∀ y, y < person.height → (person.pix x y).a = 0) :
    person.getbbox = none ∧ cropToBBox person = person := by
  have hb : person.getbbox = none := getbbox_eq_none person h
  refine ⟨hb, ?_⟩
  unfold cropToBBox
  rw [hb]

/-- Witness for C6 on the concrete 1x1 transparent cutout. -/
theorem C6_transparent_cutout_skip_crop_witness :
    (∀ x, x < clearCutout.width → ∀ y, y < clearCutout.height →
      (clearCutout.pix x y).a = 0) ∧
    (clearCutout.getbbox = none ∧ cropToBBox clearCutout = clearCutout) :=
  ⟨by decide, C6_transparent_cutout_skip_crop clearCutout (by decide)⟩

/-- Claim C4 counterexample: the source never range-checks the selector, it
only falls back when the frame file is absent.  In a deployment whose frames
folder also holds `frame_7.png`, selector "7" — outside `[1,6]` — composites
onto that frame, so the stored output differs from the frame-1 output already
at pixel (0,0): the claimed byte-for-byte equality is false. -/
theorem C4_counterexample :
    (((process_image envFrames17 (baseReq "7") stEmpty).2.outputs.lookup
        "deadbeef_output.png").map fun i => i.pix 0 0) ≠
      (((process_image envFrames17 (baseReq "1") stEmpty).2.outputs.lookup
        "deadbeef_output.png").map fun i => i.pix 0 0) := by
  decide

lemma resolveFrame_of_missing (frames : List (String × PILImage)) (choice : String)
    (h : frames.lookup ("frame_" ++ choice ++ ".png") = none) :
    resolveFrame frames choice = resolveFrame frames "1" := by
  unfold resolveFrame
  rw [h]
  have h1 : ("frame_" ++ "1" ++ ".png") = "frame_1.png" := rfl
  rw [h1]
  cases hl : frames.lookup "frame_1.png" <;> simp

/-- Claim C4 as amended: a frame selector whose frame file is absent from the
frames folder — in particular any selector outside `[1,6]` in the reference
deployment that ships exactly frames 1..6 — yields a run identical to an
explicit request for frame 1 (same response and same stored bytes, given the
same request id); a selector outside `[1,6]` whose file happens to exist uses
that file instead. -/
theorem C4_amended_missing_frame_fallback (env : Env) (req : Request)
    (st : Store) (choice : String)
    (h : env.frames.lookup ("frame_" ++ choice ++ ".png") = none) :
    process_image env { req with bgChoice := choice } st =
      process_image env { req with bgChoice := "1" } st := by
  cases req
  unfold process_image after_upload
  simp only [resolveFrame_of_missing env.frames choice h]
  rfl

/-- Witness for the amended C4: selector "99" with only frames 1 and 7 on
disk runs exactly like selector "1". -/
theorem C4_amended_missing_frame_fallback_witness :
    envFrames17.frames.lookup ("frame_" ++ "99" ++ ".png") = none ∧
    process_image envFrames17 (baseReq "99") stEmpty =
      process_image envFrames17 (baseReq "1") stEmpty :=
  ⟨rfl, C4_amended_missing_frame_fallback envFrames17 (baseReq "1") stEmpty "99" rfl⟩

lemma deleteStep_missing (removeErr : String → Option String) (acc : DeleteAcc)
    (fn : String) (h : acc.folder.lookup (basename fn) = none) :
    deleteStep removeErr acc fn = acc := by
  simp only [deleteStep]
  rw [h]
  simp

lemma deleteStep_error (removeErr : String → Option String) (acc : DeleteAcc)
    (fn : String) (e : String)
    (hs : (acc.folder.lookup (basename fn)).isSome = true)
    (he : removeErr (basename fn) = some e) :
    deleteStep removeErr acc fn =
      { acc with
        errors := acc.errors ++ ["Failed to delete " ++ basename fn ++ ": " ++ e] } := by
  simp only [deleteStep]
  rw [if_pos hs, he]

/-- Claim C5: in the bulk-delete loop, a filename resolving to a missing file
is skipped silently — folder, `deleted_count` and `errors` all unchanged, so
re-deleting an already deleted name is idempotent — and a filename whose
`os.remove` raises only appends a per-file error message while the rest of
the batch is still processed. -/
theorem C5_bulk_delete_skip_and_continue (removeErr : String → Option String)
    (acc : DeleteAcc) (fn : String) (rest : List String) :
    (acc.folder.lookup (basename fn) = none →
      deleteLoop removeErr acc (fn :: rest) = deleteLoop removeErr acc rest) ∧
    (∀ e, (acc.folder.lookup (basename fn)).isSome = true →
      removeErr (basename fn) = some e →
      deleteLoop removeErr acc (fn :: rest) =
        deleteLoop removeErr
          { acc with
            errors := acc.errors ++ ["Failed to delete " ++ basename fn ++ ": " ++ e] }
          rest) := by
  constructor
  · intro h
    show deleteLoop removeErr (deleteStep removeErr acc fn) rest = _
    rw [deleteStep_missing removeErr acc fn h]
  · intro e hs he
    show deleteLoop removeErr (deleteStep removeErr acc fn) rest = _
    rw [deleteStep_error removeErr acc fn e hs he]

/-- Witness for C5: a missing name is a silent no-op and a raising remove
collects its error and continues with the rest of the batch. -/
theorem C5_bulk_delete_skip_and_continue_witness :
    (accW.folder.lookup (basename "missing.png") = none ∧
      deleteLoop removeErrW accW ["missing.png", "z.png"] =
        deleteLoop removeErrW accW ["z.png"]) ∧
    ((accW.folder.lookup (basename "sub/bad.png")).isSome = true ∧
      removeErrW (basename "sub/bad.png") = some "Errno 5" ∧
      deleteLoop removeErrW accW ["sub/bad.png", "z.png"] =
        deleteLoop removeErrW
          { accW with
            errors := accW.errors ++
              ["Failed to delete " ++ basename "sub/bad.png" ++ ": " ++ "Errno 5"] }
          ["z.png"]) :=
  ⟨⟨rfl, (C5_bulk_delete_skip_and_continue removeErrW accW "missing.png" ["z.png"]).1 rfl⟩,
   ⟨rfl, rfl,
    (C5_bulk_delete_skip_and_continue removeErrW accW "sub/bad.png" ["z.png"]).2
      "Errno 5" rfl rfl⟩⟩

/-- Claim C10: an authenticated bulk-delete or bulk-download whose filename
list is empty or whose category is not exactly outputs or uploads changes no
bucket and answers 400 Invalid request. -/
theorem C10_invalid_request (removeErr : String → Option String) (st : Store)
    (filenames : List String) (category : Option String)
    (h : filenames = [] ∨ ¬(category = some "outputs" ∨ category = some "uploads")) :
    delete_images true removeErr st filenames category =
      (Resp.jsonError 400 "Invalid request", st) ∧
    bulk_download true st filenames category =
      (Resp.jsonError 400 "Invalid request", st) := by
  constructor
  · unfold delete_images
    rw [if_neg (by simp), if_pos h]
  · unfold bulk_download
    rw [if_neg (by simp), if_pos h]

/-- Witness for C10 on an empty filename list. -/
theorem C10_invalid_request_witness :
    delete_images true (fun _ => none) stEmpty [] (some "outputs") =
      (Resp.jsonError 400 "Invalid request", stEmpty) ∧
    bulk_download true stEmpty [] (some "outputs") =
      (Resp.jsonError 400 "Invalid request", stEmpty) :=
  C10_invalid_request (fun _ => none) stEmpty [] (some "outputs") (Or.inl rfl)

lemma composite_and_save_uploads (env : Env) (req : Request)
    (person frame : PILImage) (st : Store) :
    (composite_and_save env req person frame st).2.uploads = st.uploads := by
  simp only [composite_and_save]
  cases hfit : fit_person_to_frame_checked person frame with
  | error m => rfl
  | ok final =>
    cases hso : env.saveOutput with
    | error m => rfl
    | ok u => rfl

lemma after_upload_uploads (env : Env) (req : Request) (st : Store) :
    (after_upload env req st).2.uploads = st.uploads := by
  unfold after_upload
  cases hrb : remove_background env.segment req.content with
  | error m => rfl
  | ok person =>
    cases hrf : resolveFrame env.frames req.bgChoice with
    | none => rfl
    | some frame => exact composite_and_save_uploads env req person frame st

lemma process_image_uploads (env : Env) (req : Request) (st : Store) :
    (process_image env req st).2.uploads = st.uploads ∨
    (process_image env req st).2.uploads =
      st.uploads ++ [(secure_filename (env.uniqueId ++ "_" ++ req.filename), req.content)] := by
  cases hf : req.hasFile with
  | false => left; simp [process_image, hf]
  | true =>
    by_cases hfn : req.filename = ""
    · left; simp [process_image, hf, hfn]
    · cases ha : allowed_file req.filename with
      | false => left; simp [process_image, hf, hfn, ha]
      | true =>
        cases hsu : env.saveUpload with
        | error m => left; simp [process_image, hf, hfn, ha, hsu, fail500]
        | ok u =>
          right
          simp only [process_image, hf, hfn, ha, hsu]
          simp
          rw [after_upload_uploads]

lemma process_image_outputs (env : Env) (req : Request) (st : Store) :
    (process_image env req st).2.outputs = st.outputs ∨
    ((process_image env req st).1.isOk = true ∧
      ∃ i, (process_image env req st).2.outputs =
        st.outputs ++ [(env.uniqueId ++ "_output.png", flattenToRGB i)]) := by
  cases hf : req.hasFile with
  | false => left; simp [process_image, hf]
  | true =>
    by_cases hfn : req.filename = ""
    · left; simp [process_image, hf, hfn]
    · cases ha : allowed_file req.filename with
      | false => left; simp [process_image, hf, hfn, ha]
      | true =>
        cases hsu : env.saveUpload with
        | error m => left; simp [process_image, hf, hfn, ha, hsu, fail500]
        | ok u =>
          cases hrb : remove_background env.segment req.content with
          | error m =>
            left; simp [process_image, after_upload, hf, hfn, ha, hsu, hrb, fail500]
          | ok person =>
            cases hrf : resolveFrame env.frames req.bgChoice with
            | none =>
              left; simp [process_image, after_upload, hf, hfn, ha, hsu, hrb, hrf]
            | some frame =>
              cases hfit : fit_person_to_frame_checked person frame with
              | error m =>
                left
                simp [process_image, after_upload, composite_and_save,
                  hf, hfn, ha, hsu, hrb, hrf, hfit, fail500]
              | ok final =>
                cases hso : env.saveOutput with
                | error m =>
                  left
                  simp [process_image, after_upload, composite_and_save,
                    hf, hfn, ha, hsu, hrb, hrf, hfit, hso, fail500]
                | ok u2 =>
                  right
                  simp [process_image, after_upload, composite_and_save,
                    hf, hfn, ha, hsu, hrb, hrf, hfit, hso, Resp.isOk]

/-- Claim C8: a `/process` run that does not succeed leaves the outputs
bucket exactly as it was (no partial output is ever persisted) and never
removes anything from the uploads bucket; moreover, once validation passes
and the upload write succeeds, the uploaded file sits in the uploads bucket
under its unique sanitized name regardless of any downstream failure. -/
theorem C8_failure_retention (env : Env) (req : Request) (st : Store) :
    ((process_image env req st).1.isOk = false →
      (process_image env req st).2.outputs = st.outputs ∧
      List.IsPrefix st.uploads (process_image env req st).2.uploads) ∧
    (req.hasFile = true → ¬ req.filename = "" → allowed_file req.filename = true →
      env.saveUpload = Except.ok () →
      (process_image env req st).2.uploads =
        st.uploads ++ [(secure_filename (env.uniqueId ++ "_" ++ req.filename), req.content)]) := by
  constructor
  · intro hfail
    constructor
    · rcases process_image_outputs env req st with h | ⟨hok, _⟩
      · exact h
      · rw [hok] at hfail; cases hfail
    · rcases process_image_uploads env req st with h | h
      · rw [h]
      · rw [h]; exact ⟨_, rfl⟩
  · intro h1 h2 h3 h4
    simp only [process_image, h1, h2, h3, h4]
    simp
    rw [after_upload_uploads]

/-- Witness for C8: a run whose segmentation stage fails keeps the outputs
bucket empty and retains the just-persisted upload. -/
theorem C8_failure_retention_witness :
    ((process_image envSegFail (baseReq "1") stEmpty).1.isOk = false ∧
      (process_image envSegFail (baseReq "1") stEmpty).2.outputs = stEmpty.outputs ∧
      List.IsPrefix stEmpty.uploads
        (process_image envSegFail (baseReq "1") stEmpty).2.uploads) ∧
    ((baseReq "1").hasFile = true ∧ ¬ (baseReq "1").filename = "" ∧
      allowed_file (baseReq "1").filename = true ∧
      envSegFail.saveUpload = Except.ok () ∧
      (process_image envSegFail (baseReq "1") stEmpty).2.uploads =
        stEmpty.uploads ++
          [(secure_filename (envSegFail.uniqueId ++ "_" ++ (baseReq "1").filename),
            (baseReq "1").content)]) :=
  ⟨⟨by decide,
    (C8_failure_retention envSegFail (baseReq "1") stEmpty).1 (by decide)⟩,
   ⟨rfl, by decide, by decide, rfl,
    (C8_failure_retention envSegFail (baseReq "1") stEmpty).2 rfl (by decide) (by decide) rfl⟩⟩

/-- Claim C9: every file the `/process` pipeline adds to the outputs bucket
is the flattened opaque-RGB image; files already present are untouched, so
every stored output has RGB mode with no alpha byte. -/
theorem C9_outputs_rgb (env : Env) (req : Request) (st : Store)
    (p : String × PILImage)
    (hp : p ∈ (process_image env req st).2.outputs) :
    p ∈ st.outputs ∨ p.2.mode = ImageMode.RGB := by
  rcases process_image_outputs env req st with h | ⟨_, i, h⟩
  · rw [h] at hp; exact Or.inl hp
  · rw [h] at hp
    rcases List.mem_append.mp hp with hm | hm
    · exact Or.inl hm
    · right
      have hp2 : p = (env.uniqueId ++ "_output.png", flattenToRGB i) :=
        List.mem_singleton.mp hm
      rw [hp2]
      rfl

/-- Witness for C9: a failed run leaves a pre-existing output in place, and
that stored output is RGB. -/
theorem C9_outputs_rgb_witness :
    ("old.png", rgbKeep) ∈ (process_image envSegFail (baseReq "1") stOld).2.outputs ∧
    (("old.png", rgbKeep) ∈ stOld.outputs ∨ rgbKeep.mode = ImageMode.RGB) :=
  ⟨by
    have h : (process_image envSegFail (baseReq "1") stOld).2.outputs =
        [("old.png", rgbKeep)] := rfl
    rw [h]
    exact List.mem_singleton.mpr rfl,
   C9_outputs_rgb envSegFail (baseReq "1") stOld ("old.png", rgbKeep)
     (by
       have h : (process_image envSegFail (baseReq "1") stOld).2.outputs =
           [("old.png", rgbKeep)] := rfl
       rw [h]
       exact List.mem_singleton.mpr rfl)⟩

set_option maxRecDepth 10000 in
/-- Claim C1 counterexample: the 500 body built at app.py line 214 embeds
`str(e)` verbatim, and an `OSError` message carries the target filesystem
path, so the client-visible body contains that path; moreover the WSGI
wrapper (passenger_wsgi.py lines 17-40) sends the full traceback to the
browser on import failure.  Both refute the claim that the client only ever
sees a generic message with no paths or stack traces. -/
theorem C1_counterexample :
    strContains (respBody (process_image envSaveFail (baseReq "1") stEmpty).1)
      "/home/booth/outputs/deadbeef_output.png" = true ∧
    strContains (passenger_error_body (format_exc "ModuleNotFoundError"))
      "Traceback (most recent call last):" = true := by
  constructor
  · decide
  · decide

/-- Claim C1 as amended: a pipeline-stage failure (upload write, segmentation
or output write/encode) is surfaced as 500 whose body carries the exception
message verbatim — which may include filesystem paths — together with the
fixed hint `Check app_debug.log on server`, while the full traceback is
appended to the operator-facing log; additionally the WSGI wrapper returns
the full traceback to the client on import failure. -/
theorem C1_amended_error_detail (env : Env) (req : Request) (st : Store)
    (m d : String)
    (h : (process_image env req st).1 = Resp.serverError m d) :
    d = "Check app_debug.log on server" ∧
    (process_image env req st).2.log =
      st.log ++ ["Processing Error:\n" ++ format_exc m] := by
  cases hf : req.hasFile with
  | false => simp [process_image, hf] at h
  | true =>
    by_cases hfn : req.filename = ""
    · simp [process_image, hf, hfn] at h
    · cases ha : allowed_file req.filename with
      | false => simp [process_image, hf, hfn, ha] at h
      | true =>
        cases hsu : env.saveUpload with
        | error m0 =>
          simp [process_image, hf, hfn, ha, hsu, fail500] at h
          obtain ⟨hm, hd⟩ := h
          subst hm
          subst hd
          exact ⟨rfl, by simp [process_image, hf, hfn, ha, hsu, fail500]⟩
        | ok u =>
          cases hrb : remove_background env.segment req.content with
          | error m0 =>
            simp [process_image, after_upload, hf, hfn, ha, hsu, hrb, fail500] at h
            obtain ⟨hm, hd⟩ := h
            subst hm
            subst hd
            exact ⟨rfl, by
              simp [process_image, after_upload, hf, hfn, ha, hsu, hrb, fail500]⟩
          | ok person =>
            cases hrf : resolveFrame env.frames req.bgChoice with
            | none =>
              simp [process_image, after_upload, hf, hfn, ha, hsu, hrb, hrf] at h
            | some frame =>
              cases hfit : fit_person_to_frame_checked person frame with
              | error m0 =>
                simp [process_image, after_upload, composite_and_save,
                  hf, hfn, ha, hsu, hrb, hrf, hfit, fail500] at h
                obtain ⟨hm, hd⟩ := h
                subst hm
                subst hd
                exact ⟨rfl, by
                  simp [process_image, after_upload, composite_and_save,
                    hf, hfn, ha, hsu, hrb, hrf, hfit, fail500]⟩
              | ok final =>
                cases hso : env.saveOutput with
                | error m0 =>
                  simp [process_image, after_upload, composite_and_save,
                    hf, hfn, ha, hsu, hrb, hrf, hfit, hso, fail500] at h
                  obtain ⟨hm, hd⟩ := h
                  subst hm
                  subst hd
                  exact ⟨rfl, by
                    simp [process_image, after_upload, composite_and_save,
                      hf, hfn, ha, hsu, hrb, hrf, hfit, hso, fail500]⟩
                | ok u2 =>
                  simp [process_image, after_upload, composite_and_save,
                    hf, hfn, ha, hsu, hrb, hrf, hfit, hso] at h

set_option maxRecDepth 10000 in
/-- Witness for the amended C1 on the save-failure deployment. -/
theorem C1_amended_error_detail_witness :
    ((process_image envSaveFail (baseReq "1") stEmpty).1 =
      Resp.serverError
        "Errno 13 Permission denied: /home/booth/outputs/deadbeef_output.png"
        "Check app_debug.log on server") ∧
    ("Check app_debug.log on server" = "Check app_debug.log on server" ∧
      (process_image envSaveFail (baseReq "1") stEmpty).2.log =
        stEmpty.log ++ ["Processing Error:\n" ++
          format_exc
            "Errno 13 Permission denied: /home/booth/outputs/deadbeef_output.png"]) :=
  ⟨rfl, C1_amended_error_detail envSaveFail (baseReq "1") stEmpty _ _ rfl⟩

lemma div_mul_dist_lt (a h : Nat) (hh : 0 < h) : Nat.dist (a / h * h) a < h := by
  have h1 := Nat.div_add_mod a h
  have h2 := Nat.mod_lt a hh
  rw [Nat.mul_comm h (a / h)] at h1
  simp only [Nat.dist]
  generalize hq : a / h * h = Q at h1 ⊢
  generalize hr : a % h = r at h1 h2
  omega

lemma ceil_div_mul_dist_lt (a h : Nat) (hh : 0 < h) :
    Nat.dist ((a + h - 1) / h * h) a < h := by
  have h1 := Nat.div_add_mod (a + h - 1) h
  have h2 := Nat.mod_lt (a + h - 1) hh
  rw [Nat.mul_comm h ((a + h - 1) / h)] at h1
  simp only [Nat.dist]
  generalize hq : (a + h - 1) / h * h = Q at h1 ⊢
  generalize hr : (a + h - 1) % h = r at h1 h2
  omega

lemma floor_div_le (a b h : Nat) (hh : 0 < h) (hab : a ≤ b * h) : a / h ≤ b := by
  have h3 : a / h ≤ b * h / h := Nat.div_le_div_right hab
  rw [Nat.mul_div_cancel b hh] at h3
  exact h3

lemma roundAspectW_le (y w h : Nat) (hy : 0 < y) (hh : 0 < h) (hwh : w ≤ h) :
    roundAspectW y w h ≤ y := by
  have hmul : y * w ≤ y * h := Nat.mul_le_mul (Nat.le_refl y) hwh
  have hf : y * w / h ≤ y := floor_div_le _ _ _ hh (by omega)
  have hc : (y * w + h - 1) / h < y + 1 := by
    rw [Nat.div_lt_iff_lt_mul hh]
    have hexp : (y + 1) * h = y * h + h := by ring
    omega
  simp only [roundAspectW]
  split
  · exact max_le hf hy
  · exact max_le (by omega) hy

lemma roundAspectH_le (x w h : Nat) (hx : 0 < x) (hw : 0 < w) (hhw : h ≤ w) :
    roundAspectH x w h ≤ x := by
  have hmul : x * h ≤ x * w := Nat.mul_le_mul (Nat.le_refl x) hhw
  have hf : x * h / w ≤ x := floor_div_le _ _ _ hw (by omega)
  have hc : (x * h + w - 1) / w < x + 1 := by
    rw [Nat.div_lt_iff_lt_mul hw]
    have hexp : (x + 1) * w = x * w + w := by ring
    omega
  simp only [roundAspectH]
  split
  · exact max_le hf hx
  · split
    · exact max_le hf hx
    · exact max_le (by omega) hx

lemma roundAspectW_dist (y w h : Nat) (hy : 0 < y) (hw : 0 < w) (hh : 0 < h) :
    Nat.dist (roundAspectW y w h * h) (y * w) < h := by
  have hfd := div_mul_dist_lt (y * w) h hh
  have hcd := ceil_div_mul_dist_lt (y * w) h hh
  have hyw : 0 < y * w := Nat.mul_pos hy hw
  simp only [roundAspectW]
  split
  · rcases Nat.eq_zero_or_pos (y * w / h) with h0 | h1
    · have hlt : y * w < h := (Nat.div_eq_zero_iff hh).mp h0
      rw [h0]
      have hone : max 0 1 = 1 := rfl
      rw [hone, Nat.one_mul]
      simp only [Nat.dist]
      omega
    · rw [max_eq_left h1]
      exact hfd
  · rcases Nat.eq_zero_or_pos ((y * w + h - 1) / h) with h0 | h1
    · have hlt : y * w + h - 1 < h := (Nat.div_eq_zero_iff hh).mp h0
      omega
    · rw [max_eq_left h1]
      exact hcd

lemma roundAspectH_dist (x w h : Nat) (hx : 0 < x) (hw : 0 < w) (hh : 0 < h) :
    Nat.dist (roundAspectH x w h * w) (x * h) < w := by
  have hfd := div_mul_dist_lt (x * h) w hw
  have hcd := ceil_div_mul_dist_lt (x * h) w hw
  have hxh : 0 < x * h := Nat.mul_pos hx hh
  simp only [roundAspectH]
  split
  next h0 =>
    have hlt : x * h < w := (Nat.div_eq_zero_iff hw).mp h0
    rw [h0]
    have hone : max 0 1 = 1 := rfl
    rw [hone, Nat.one_mul]
    simp only [Nat.dist]
    omega
  next h0 =>
    have h1 : 0 < x * h / w := Nat.pos_of_ne_zero h0
    split
    · rw [max_eq_left h1]
      exact hfd
    · have hcge : x * h / w ≤ (x * h + w - 1) / w := Nat.div_le_div_right (by omega)
      rw [max_eq_left (by omega)]
      exact hcd

lemma thumbnail_bounds (img : PILImage) (hw : 0 < img.width) (hh : 0 < img.height)
    (hbig : max img.width img.height > 2000) :
    (img.thumbnail 2000 2000).width ≤ 2000 ∧
    (img.thumbnail 2000 2000).height ≤ 2000 ∧
    Nat.dist ((img.thumbnail 2000 2000).width * img.height)
      ((img.thumbnail 2000 2000).height * img.width) <
      max img.width img.height := by
  simp only [PILImage.thumbnail]
  rw [if_neg (by omega)]
  by_cases hcmp : 2000 * img.height ≥ 2000 * img.width
  · have hwh : img.width ≤ img.height := by omega
    have hW := roundAspectW_le 2000 img.width img.height (by norm_num) hh hwh
    have hWd := roundAspectW_dist 2000 img.width img.height (by norm_num) hw hh
    rw [if_pos hcmp]
    split
    next heq =>
      exfalso
      injection heq with e1 e2
      omega
    next =>
      refine ⟨?_, ?_, ?_⟩
      · show roundAspectW 2000 img.width img.height ≤ 2000
        exact hW
      · show (2000 : Nat) ≤ 2000
        exact Nat.le_refl 2000
      · show Nat.dist (roundAspectW 2000 img.width img.height * img.height)
          (2000 * img.width) < max img.width img.height
        omega
  · have hwh : img.height < img.width := by omega
    have hH := roundAspectH_le 2000 img.width img.height (by norm_num) hw (by omega)
    have hHd := roundAspectH_dist 2000 img.width img.height (by norm_num) hw hh
    rw [if_neg hcmp]
    split
    next heq =>
      exfalso
      injection heq with e1 e2
      omega
    next =>
      refine ⟨?_, ?_, ?_⟩
      · show (2000 : Nat) ≤ 2000
        exact Nat.le_refl 2000
      · show roundAspectH 2000 img.width img.height ≤ 2000
        exact hH
      · show Nat.dist (2000 * img.height)
          (roundAspectH 2000 img.width img.height * img.width) < max img.width img.height
        rw [Nat.dist_comm]
        omega

/-- Claim C7: when either input dimension exceeds the 2000 px working bound,
the pre-segmentation downscale brings both dimensions to at most 2000 px
while preserving the aspect ratio up to the integer rounding of the thumbnail
computation (cross-multiplied gap below one source dimension); images already
within the bound pass through unchanged; and `remove_background` feeds
exactly this resized image to the segmentation capability. -/
theorem C7_downscale_bound (img : PILImage) (hw : 0 < img.width)
    (hh : 0 < img.height) :
    (max img.width img.height > 2000 →
      (remove_background_resize img).width ≤ 2000 ∧
      (remove_background_resize img).height ≤ 2000 ∧
      Nat.dist ((remove_background_resize img).width * img.height)
        ((remove_background_resize img).height * img.width) <
        max img.width img.height) ∧
    (max img.width img.height ≤ 2000 → remove_background_resize img = img) ∧
    (∀ segment, remove_background segment img =
      (segment (remove_background_resize img)).map
        fun out => out.convert ImageMode.RGBA) := by
  refine ⟨?_, ?_, fun _ => rfl⟩
  · intro hbig
    unfold remove_background_resize
    rw [if_pos hbig]
    exact thumbnail_bounds img hw hh hbig
  · intro hsmall
    unfold remove_background_resize
    rw [if_neg (by omega)]

/-- Witness for C7 on the 4000x1000 image: the downscale lands on 2000x500. -/
theorem C7_downscale_bound_witness :
    0 < img4000.width ∧ 0 < img4000.height ∧
    ((max img4000.width img4000.height > 2000 →
      (remove_background_resize img4000).width ≤ 2000 ∧
      (remove_background_resize img4000).height ≤ 2000 ∧
      Nat.dist ((remove_background_resize img4000).width * img4000.height)
        ((remove_background_resize img4000).height * img4000.width) <
        max img4000.width img4000.height) ∧
    (max img4000.width img4000.height ≤ 2000 →
      remove_background_resize img4000 = img4000) ∧
    (∀ segment, remove_background segment img4000 =
      (segment (remove_background_resize img4000)).map
        fun out => out.convert ImageMode.RGBA)) :=
  ⟨by decide, by decide, C7_downscale_bound img4000 (by decide) (by decide)⟩

end PhotoBooth
